import Mathlib

/-!
Verification development for the WordPress site analyzer of the
attachments-summary repository (`services/wordpress_analyzer.py`,
`routes/wordpress.py`, `config.py`, `schemas.py`).

The analyzer is shallowly embedded: the parsed DOM produced by the external
HTML parser and the responses of every network probe are inputs (`Soup`,
`World`), and each Python function of the analyzer becomes a Lean function
over them.  Strings are handled as `List Char`; all character-level helpers
mirror the ASCII behaviour of the Python string/regex operations used by the
source (the source is only ever applied to URLs, slugs and HTML text where
the ASCII fragment is the relevant one).
-/

set_option autoImplicit false
set_option maxRecDepth 100000

namespace WpAnalyzer

/-! ### Python string primitives -/

/-- The characters matched by `\s` in Python's `re` module (ASCII fragment),
which is also the default separator set of `str.split` / `str.strip`. -/
def isPySpace (c : Char) : Bool :=
  c == ' ' || c == '\t' || c == '\n' || c == '\r' || c == '\x0b' || c == '\x0c'

/-- Characters matched by the `[\d.]` class. -/
def isDigitDot (c : Char) : Bool :=
  c.isDigit || c == '.'

def lowerChar (c : Char) : Char := c.toLower

/-- `str.lower()` (ASCII). -/
def pyLowerChars (s : List Char) : List Char := s.map lowerChar

def pyLower (s : String) : String := String.mk (pyLowerChars s.data)

/-- `str.strip()` with no argument: drop leading and trailing whitespace. -/
def pyStripChars (s : List Char) : List Char :=
  ((s.dropWhile isPySpace).reverse.dropWhile isPySpace).reverse

def pyStrip (s : String) : String := String.mk (pyStripChars s.data)

/-- Does `s` start with `pat` (case-sensitive)?  Mirrors Python's
`str.startswith` and anchored literal matching in `re`. -/
def listStarts : List Char → List Char → Bool
  | [], _ => true
  | _ :: _, [] => false
  | p :: ps, c :: cs => p == c && listStarts ps cs

/-- Case-insensitive variant of `listStarts` (for `re.IGNORECASE` literals). -/
def listStartsCI (pat s : List Char) : Bool :=
  listStarts (pyLowerChars pat) (pyLowerChars (s.take pat.length))

/-- Python's `sub in s` substring test. -/
def subIn (pat : List Char) : List Char → Bool
  | [] => listStarts pat []
  | c :: cs => listStarts pat (c :: cs) || subIn pat cs

def pyContains (s pat : String) : Bool := subIn pat.data s.data

/-- `str.replace(a, b)` for single-character `a`, `b` (the only form the
source uses: `'-'`/`'_'` to `' '`). -/
def replaceChar (a b : Char) (s : String) : String :=
  String.mk (s.data.map (fun c => if c == a then b else c))

/-- `str.title()` (ASCII): a cased character following a non-cased character
is uppercased, other cased characters are lowercased. -/
def pyTitleChars : Bool → List Char → List Char
  | _, [] => []
  | prev, c :: cs =>
    if c.isAlpha then
      (if prev then c.toLower else c.toUpper) :: pyTitleChars true cs
    else
      c :: pyTitleChars false cs

def pyTitle (s : String) : String := String.mk (pyTitleChars false s.data)

/-- `s[:n]` character slicing. -/
def pyTake (n : Nat) (s : String) : String := String.mk (s.data.take n)

/-- `str.split()` with no argument: split on whitespace runs, dropping empty
pieces.  Fueled recursion; the fuel is instantiated with the list length,
which is always sufficient since every step consumes at least one char. -/
def pySplitWsAux : Nat → List Char → List (List Char)
  | 0, _ => []
  | _, [] => []
  | n + 1, c :: cs =>
    if isPySpace c then pySplitWsAux n cs
    else
      let w := (c :: cs).takeWhile (fun d => !isPySpace d)
      w :: pySplitWsAux n ((c :: cs).drop w.length)

/-- `' '.join(s.split())`: collapse whitespace runs to single spaces. -/
def collapseWs (s : List Char) : List Char :=
  (List.intercalate [' '] (pySplitWsAux s.length s))

/-! ### The regex fragments used by the analyzer

Each regex of the source is compiled by hand to a scanner over `List Char`.
All of them have the shape "literal, optional separator class, capture of a
nonempty character-class run (optionally a closing character)"; the classes
never overlap with their neighbours, so Python's backtracking never changes
the greedy outcome and the scanners below are direct transcriptions. -/

/-- Try `lit` (case-insensitive iff `ci`), then a run of `mid` (required
nonempty iff `midReq`), then capture a nonempty run of `cap`, at the start of
`s`.  Returns the capture and the remainder after the whole match. -/
def reTryAt (ci : Bool) (lit : List Char) (mid : Char → Bool) (midReq : Bool)
    (cap : Char → Bool) (close : Option Char) (s : List Char) :
    Option (String × List Char) :=
  if (if ci then listStartsCI lit s else listStarts lit s) then
    let r1 := s.drop lit.length
    let m := r1.takeWhile mid
    if midReq && m.isEmpty then none
    else
      let r2 := r1.drop m.length
      let cpt := r2.takeWhile cap
      if cpt.isEmpty then none
      else
        let r3 := r2.drop cpt.length
        match close with
        | none => some (String.mk cpt, r3)
        | some ch =>
          match r3 with
          | d :: r4 => if d == ch then some (String.mk cpt, r4) else none
          | [] => none
  else none

/-- `re.search`: leftmost match, advancing one position on failure. -/
def reSearchChars (ci : Bool) (lit : List Char) (mid : Char → Bool)
    (midReq : Bool) (cap : Char → Bool) (close : Option Char) :
    List Char → Option String
  | [] => none
  | c :: cs =>
    match reTryAt ci lit mid midReq cap close (c :: cs) with
    | some (v, _) => some v
    | none => reSearchChars ci lit mid midReq cap close cs

/-- `re.findall`: non-overlapping leftmost matches, resuming after each
match.  Fueled; the fuel is the length of the scanned text, sufficient since
the literal of every pattern is nonempty. -/
def reFindAllChars (ci : Bool) (lit : List Char) (cap : Char → Bool)
    (close : Option Char) : Nat → List Char → List String
  | 0, _ => []
  | _, [] => []
  | n + 1, c :: cs =>
    match reTryAt ci lit (fun _ => false) false cap close (c :: cs) with
    | some (v, rest) => v :: reFindAllChars ci lit cap close n rest
    | none => reFindAllChars ci lit cap close n cs

def noMid : Char → Bool := fun _ => false

/-- `re.search(r'WordPress\s+([\d.]+)', content, re.IGNORECASE)`. -/
def searchWordPressVersion (content : String) : Option String :=
  reSearchChars true "WordPress".data isPySpace true isDigitDot none content.data

/-- `re.search(r'generator>https://wordpress\.org/\?v=([\d.]+)', body)`. -/
def searchFeedVersion (body : String) : Option String :=
  reSearchChars false "generator>https://wordpress.org/?v=".data noMid false
    isDigitDot none body.data

/-- `re.search(r'Version\s+([\d.]+)', body)` (case-sensitive). -/
def searchReadmeVersion (body : String) : Option String :=
  reSearchChars false "Version".data isPySpace true isDigitDot none body.data

/-- `re.findall(r'ver=([\d.]+)', html)`. -/
def verMatches (html : String) : List String :=
  reFindAllChars false "ver=".data isDigitDot none html.data.length html.data

/-- `re.findall(r'/wp-content/themes/([^/]+)/', html)`. -/
def themeMatches (html : String) : List String :=
  reFindAllChars false "/wp-content/themes/".data (fun c => c != '/') (some '/')
    html.data.length html.data

/-- `re.findall(r'/wp-content/plugins/([^/\'"?\s]+)', html, re.IGNORECASE)`. -/
def pluginPathMatches (html : String) : List String :=
  reFindAllChars true "/wp-content/plugins/".data
    (fun c => !(c == '/' || c == '\'' || c == '"' || c == '?' || isPySpace c))
    none html.data.length html.data

/-- `re.search(r'/wp-content/plugins/([^/]+)/', s)` (link/script/meta tags). -/
def pluginDirSlug (s : String) : Option String :=
  reSearchChars false "/wp-content/plugins/".data noMid false
    (fun c => c != '/') (some '/') s.data

/-- `re.search(r'/wp-content/plugins/([^/\'"]+)', s)` (inline scripts). -/
def inlinePluginSlug (s : String) : Option String :=
  reSearchChars false "/wp-content/plugins/".data noMid false
    (fun c => !(c == '/' || c == '\'' || c == '"')) none s.data

/-- `re.search(r'Version:\s*([\d.]+)', content)` (theme `style.css`). -/
def searchStyleVersion (content : String) : Option String :=
  reSearchChars false "Version:".data isPySpace false isDigitDot none content.data

/-- `re.search(r'Stable tag:\s*([\d.]+)', content, re.IGNORECASE)` followed by
`.strip()` (a no-op on a `[\d.]+` capture, applied for fidelity). -/
def stableTagVersion (content : String) : Option String :=
  (reSearchChars true "Stable tag:".data isPySpace false isDigitDot none
    content.data).map pyStrip

def isCommentSlugChar (c : Char) : Bool :=
  c.isLower || c.isDigit || c == '-'

/-- One position of `re.search(r'(?:plugin[:\s]+|wp-)([a-z0-9-]+)', t)`:
the `plugin[:\s]+` branch is tried before the `wp-` branch, as in Python's
ordered alternation. -/
def commentTryAt (s : List Char) : Option String :=
  match reTryAt false "plugin".data (fun c => c == ':' || isPySpace c) true
      isCommentSlugChar none s with
  | some (v, _) => some v
  | none =>
    match reTryAt false "wp-".data noMid false isCommentSlugChar none s with
    | some (v, _) => some v
    | none => none

def commentSearchChars : List Char → Option String
  | [] => none
  | c :: cs =>
    match commentTryAt (c :: cs) with
    | some v => some v
    | none => commentSearchChars cs

/-- `re.search(r'(?:plugin[:\s]+|wp-)([a-z0-9-]+)', comment_text)` where
`comment_text` has already been lowercased by the caller. -/
def commentRegexSlug (t : String) : Option String :=
  commentSearchChars t.data

/-- One position of `re.search(r'Author:\s*([^\n]+)', content)`.  Here the
`\s*` separator and the `[^\n]+` capture overlap (blanks other than newline
are in both), so Python's backtracking matters: when only whitespace follows
the literal, the greedy `\s*` gives back a non-newline blank and the match
succeeds with an all-blank capture.  `none` = no match at this position;
`some none` = a match whose capture is all blanks (it strips to the empty
string, which the caller's truthiness test then discards — but the search
stops here); `some (some v)` = a match with stripped capture `v`. -/
def authorTryAt (s : List Char) : Option (Option String) :=
  if listStarts "Author:".data s then
    let rest := s.drop 7
    let ws := rest.takeWhile isPySpace
    match rest.drop ws.length with
    | [] => if ws.any (fun c => c != '\n') then some none else none
    | c :: cs =>
      some (some (pyStrip (String.mk ((c :: cs).takeWhile (fun d => d != '\n')))))
  else none

def authorSearchChars : List Char → Option (Option String)
  | [] => none
  | c :: cs =>
    match authorTryAt (c :: cs) with
    | some r => some r
    | none => authorSearchChars cs

/-- The theme-author value produced by `fetch_style`:
`author_match.group(1).strip() if author_match else None`, combined with the
caller's `if author_val:` truthiness guard. -/
def styleAuthor (content : String) : Option String :=
  match authorSearchChars content.data with
  | none => none
  | some none => none
  | some (some v) => if v == "" then none else some v

/-! ### Plugin readme description extraction (`_detect_plugins`, lines 425-440) -/

/-- Shortest prefix of `s` up to (excluding) the first suffix satisfying `p`;
the whole of `s` when no suffix does.  This is the value of a lazy `(.*?)`
capture under `re.DOTALL` bounded by a terminator lookahead (`\Z` always
holds at the end). -/
def takeUntilTerm (p : List Char → Bool) : List Char → List Char
  | [] => []
  | c :: cs => if p (c :: cs) then [] else c :: takeUntilTerm p cs

/-- Terminator of desc pattern 1 and 3: the literal `\n===`. -/
def termEq3 (s : List Char) : Bool := listStarts "\n===".data s

/-- Terminator of desc pattern 2: `\n[A-Z][a-z]+:` or `\n===`.  Under
`re.IGNORECASE` both letter classes match any ASCII letter. -/
def termField (s : List Char) : Bool :=
  termEq3 s ||
  (match s with
   | '\n' :: c :: rest =>
     if c.isAlpha then
       let run := rest.takeWhile (fun d => d.isAlpha)
       !run.isEmpty &&
         (match rest.drop run.length with
          | ':' :: _ => true
          | _ => false)
     else false
   | _ => false)

/-- Raw capture of `r'(?:===\s*Description\s*===\s*)(.*?)(?=\n===|\Z)'` with
`re.IGNORECASE | re.DOTALL` (leftmost anchor, then lazy capture up to the
first `\n===` or the end). -/
def descPat1 : List Char → Option (List Char)
  | [] => none
  | c :: cs =>
    (if listStarts "===".data (c :: cs) then
      let r1 := (c :: cs).drop 3
      let r2 := r1.drop (r1.takeWhile isPySpace).length
      if listStartsCI "Description".data r2 then
        let r3 := r2.drop 11
        let r4 := r3.drop (r3.takeWhile isPySpace).length
        if listStarts "===".data r4 then
          let r5 := r4.drop 3
          let capStart := r5.drop (r5.takeWhile isPySpace).length
          some (takeUntilTerm termEq3 capStart)
        else none
      else none
    else none).orElse (fun _ => descPat1 cs)

/-- Raw capture of
`r'(?:Description:\s*)(.*?)(?=\n[A-Z][a-z]+:|\n===|\Z)'` (same flags). -/
def descPat2 : List Char → Option (List Char)
  | [] => none
  | c :: cs =>
    (if listStartsCI "Description:".data (c :: cs) then
      let r1 := (c :: cs).drop 12
      let capStart := r1.drop (r1.takeWhile isPySpace).length
      some (takeUntilTerm termField capStart)
    else none).orElse (fun _ => descPat2 cs)

/-- Raw capture of `r'(?:^|\n)(.*?)(?:\n===|\Z)'` (same flags).  The `^`
branch matches at position 0 and the `\Z` alternative always succeeds at the
end, so this pattern always matches, capturing up to the first `\n===`. -/
def descPat3 (s : List Char) : Option (List Char) :=
  some (takeUntilTerm termEq3 s)

/-- `re.sub(r'<[^>]+>', '', s)`: delete every `<`…`>` span holding at least
one non-`>` character.  Fueled by the text length (every step consumes at
least one character). -/
def stripTags : Nat → List Char → List Char
  | 0, s => s
  | _, [] => []
  | n + 1, c :: cs =>
    if c == '<' then
      let run := cs.takeWhile (fun d => d != '>')
      match cs.drop run.length with
      | '>' :: rest =>
        if run.isEmpty then c :: stripTags n cs else stripTags n rest
      | _ => c :: stripTags n cs
    else c :: stripTags n cs

/-- Post-processing of one description candidate (lines 434-440): strip,
delete HTML tags, collapse whitespace, keep only if longer than 10 chars,
truncate to 200 chars. -/
def descPost (raw : Option (List Char)) : Option String :=
  match raw with
  | none => none
  | some d =>
    let d1 := collapseWs (stripTags (pyStripChars d).length (pyStripChars d))
    if 10 < d1.length then some (String.mk (d1.take 200)) else none

/-- The plugin description produced by the ordered pattern list of
`fetch_plugin_info`: the first pattern whose processed capture is longer
than 10 characters wins. -/
def extractDescription (content : String) : Option String :=
  match descPost (descPat1 content.data) with
  | some v => some v
  | none =>
    match descPost (descPat2 content.data) with
    | some v => some v
    | none => descPost (descPat3 content.data)

/-! ### `collections.Counter` majority vote

`Counter(matches).most_common(1)` keys the counter in first-occurrence order
and breaks count ties by that order (`heapq.nlargest` is stable). -/

/-- Insert each element of `xs` at the end of `acc` unless already present;
this is both `dict`/`Counter` key ordering and the `detected_slugs` set of
`_detect_plugins` (viewed as an insertion-ordered list). -/
def addNewAll (acc xs : List String) : List String :=
  xs.foldl (fun a s => if s ∈ a then a else a ++ [s]) acc

/-- The distinct elements of `l` in first-occurrence order. -/
def dedupFirst (l : List String) : List String := addNewAll [] l

/-- Walk the distinct elements keeping the first one whose count (in the
full list) is strictly greater than the current best's. -/
def mostCommonGo (full : List String) : Option String → List String → Option String
  | best, [] => best
  | none, x :: xs => mostCommonGo full (some x) xs
  | some b, x :: xs =>
    mostCommonGo full (if full.count b < full.count x then some x else some b) xs

/-- `Counter(l).most_common(1)`, reduced to the winning key (`[0][0]`);
`none` exactly when `l` is empty. -/
def mostCommon1 (l : List String) : Option String :=
  mostCommonGo l none (dedupFirst l)

/-! ### urljoin -/

/-- `scheme://authority` of a URL, as characters. -/
def hostRootAux : List Char → Option (List Char)
  | [] => none
  | ':' :: '/' :: '/' :: rest =>
    some (':' :: '/' :: '/' :: rest.takeWhile (fun c => c != '/'))
  | c :: cs => (hostRootAux cs).map (fun r => c :: r)

/-- `urllib.parse.urljoin(base, path)` for the analyzer's uses: every `path`
the source passes is an absolute path (starts with `/`), for which urljoin
keeps only the scheme and authority of the base. -/
def urljoin (base path : String) : String :=
  match hostRootAux base.data with
  | some root => String.mk root ++ path
  | none => path

/-! ### Data model: parsed DOM, probe responses, result schemas -/

/-- A DOM element as BeautifulSoup exposes it to the analyzer: a name and an
attribute association list (first binding wins, as in a parsed tag). -/
structure Tag where
  attrs : List (String × String)
deriving DecidableEq, Repr

/-- `tag.get(name, default)`. -/
def Tag.getD (t : Tag) (name default : String) : String :=
  match t.attrs.find? (fun p => p.1 == name) with
  | some p => p.2
  | none => default

/-- `tag.get(name)` (default `None`). -/
def Tag.getOpt (t : Tag) (name : String) : Option String :=
  (t.attrs.find? (fun p => p.1 == name)).map (fun p => p.2)

/-- `name in tag.attrs` — used by `find('meta', attrs=...)` with `True`. -/
def Tag.hasAttr (t : Tag) (name : String) : Bool :=
  (t.attrs.find? (fun p => p.1 == name)).isSome

/-- The homepage DOM as the analyzer queries it through BeautifulSoup (the
external parser is modelled as an input): each field is the result of one of
the `find`/`find_all` query shapes the source uses, in document order. -/
structure Soup where
  /-- `find_all('meta')` (and, filtered, `find('meta', attrs=...)`). -/
  metas : List Tag
  /-- `find_all('link', href=True)`. -/
  links : List Tag
  /-- `find_all('script', src=True)`. -/
  scriptsSrc : List Tag
  /-- `script.string if script.string else ''` of `find_all('script', src=False)`. -/
  inlineScripts : List String
  /-- the string nodes visited by `find_all(string=...)`. -/
  textNodes : List String
  /-- text of `find('title')`, when present. -/
  titleText : Option String
  /-- `find('html')`, when present. -/
  htmlTag : Option Tag
deriving DecidableEq, Repr

/-- `soup.find('meta', attrs={'name': value})`: first meta tag whose `name`
attribute equals `value`. -/
def Soup.findMetaNamed (soup : Soup) (value : String) : Option Tag :=
  soup.metas.find? (fun t => t.getD "name" "" == value)

/-- An HTTP response as the analyzer reads it (`status_code`, `text`). -/
structure Response where
  status : Nat
  body : String
deriving DecidableEq, Repr

/-- The network as one scan observes it: the response of every GET/HEAD the
probe client could issue, keyed by full URL.  `Except`/`Option` errors model
the client raising (`httpx.RequestError` and friends). -/
structure World where
  /-- `client.get(url)`: `.error msg` is a raised request error with
  rendering `msg` (`str(e)`). -/
  get : String → Except String Response
  /-- `client.head(url)`: the response status, `none` when the call raises. -/
  head : String → Option Nat
  /-- `response.json()` on the wp-json body followed by
  `'namespaces' in data or 'authentication' in data`; `none` when parsing or
  the membership test raises. -/
  jsonHasWpKeys : String → Option Bool
  /-- `BeautifulSoup(html_content, 'lxml')` for the homepage body. -/
  soup : Soup

/-- `client.get` with the probe-site convention that any raised exception is
absorbed into absence. -/
def World.getOpt (w : World) (u : String) : Option Response :=
  match w.get u with
  | .ok r => some r
  | .error _ => none

/-! Result schemas (`schemas.py`): all detector fields are `Optional` with
default `None`, `plugins` defaults to the empty list. -/

structure WordPressVersion where
  version : Option String
  detected_from : Option String
deriving DecidableEq, Repr

structure ThemeInfo where
  name : Option String
  slug : Option String
  version : Option String
  author : Option String
  template_url : Option String
  screenshot_url : Option String
deriving DecidableEq, Repr

structure PluginInfo where
  name : Option String
  version : Option String
  description : Option String
deriving DecidableEq, Repr

structure SiteMetadata where
  title : Option String
  description : Option String
  language : Option String
  charset : Option String
  generator : Option String
deriving DecidableEq, Repr

structure WordPressSiteInfo where
  url : String
  is_wordpress : Bool
  wordpress_version : Option WordPressVersion
  theme : Option ThemeInfo
  plugins : List PluginInfo
  metadata : Option SiteMetadata
deriving DecidableEq, Repr

/-! ### Configuration (`config.py`)

`Settings(BaseSettings)` declares exactly the fields below; pydantic models
raise `AttributeError` on access to any other attribute.  Values shown are
the declared defaults (environment variables can override a declared field's
value but can never extend the field set). -/

inductive ConfigValue where
  | str (s : String)
  | boolean (b : Bool)
  | nat (n : Nat)
  | optStr (s : Option String)
deriving DecidableEq, Repr

/-- Attribute access `get_settings().<name>`: `some` for the fields the
`Settings` class declares, `none` (= `AttributeError`) for every other
name. -/
def settingsGetattr : String → Option ConfigValue
  | "app_name" => some (.str "Summary API")
  | "debug" => some (.boolean false)
  | "default_model_type" => some (.str "openrouter")
  | "default_model_name" => some (.str "openai/gpt-4o-mini")
  | "openrouter_api_key" => some (.optStr none)
  | "openrouter_default_model" => some (.str "openai/gpt-4o-mini")
  | "ollama_host" => some (.str "http://localhost:11434")
  | "ollama_model" => some (.str "llama3.1")
  | "gemini_api_key" => some (.optStr none)
  | "gemini_model" => some (.str "gemini-pro")
  | "openai_api_key" => some (.optStr none)
  | "openai_model" => some (.str "gpt-4o-mini")
  | "max_file_size_mb" => some (.nat 50)
  | "temp_dir" => some (.str "/tmp/summary_api")
  | "whisper_model" => some (.str "base")
  | _ => none

/-- `WordPressAnalyzer.__init__` up to the settings accesses: it reads
`settings.request_timeout` and `settings.user_agent` to build the HTTP
client; an `AttributeError` on either aborts construction. -/
def analyzerInit : Except String (ConfigValue × ConfigValue) :=
  match settingsGetattr "request_timeout" with
  | none => .error "AttributeError: request_timeout"
  | some t =>
    match settingsGetattr "user_agent" with
    | none => .error "AttributeError: user_agent"
    | some ua => .ok (t, ua)

/-! ### The analyzer (`services/wordpress_analyzer.py`) -/

/-- URL normalization at the top of `analyze` (and of the route). -/
def normalizeUrl (url : String) : String :=
  if listStarts "http://".data url.data || listStarts "https://".data url.data
  then url else "https://" ++ url

/-- `response.raise_for_status()` raises for any non-2xx status. -/
def is2xx (s : Nat) : Bool := 200 ≤ s && s ≤ 299

/-- `_is_wordpress` (lines 91-128): meta generator containing "wordpress",
`wp-content`/`wp-includes` substrings, the `/wp-json/` probe, then the three
common-file HEAD probes; every probe failure is absorbed into `false`. -/
def isWordpressCheck (w : World) (url html : String) (soup : Soup) : Bool :=
  (match soup.findMetaNamed "generator" with
   | some t => pyContains (pyLower (t.getD "content" "")) "wordpress"
   | none => false) ||
  (pyContains html "wp-content" || pyContains html "wp-includes") ||
  (match w.getOpt (urljoin url "/wp-json/") with
   | some r =>
     r.status == 200 && (w.jsonHasWpKeys r.body).getD false
   | none => false) ||
  (["/wp-login.php", "/xmlrpc.php", "/wp-admin/"].any (fun f =>
     match w.head (urljoin url f) with
     | some s => s == 200 || s == 302 || s == 403
     | none => false))

/-- Method 1 of `_detect_wordpress_version`: the generator meta tag. -/
def metaGeneratorVersion (soup : Soup) : Option String :=
  match soup.findMetaNamed "generator" with
  | some t => searchWordPressVersion (t.getD "content" "")
  | none => none

/-- Method 2: `GET <base>/feed/`, matched only on a 200 response; a raised
request is absorbed. -/
def feedVersion (w : World) (url : String) : Option String :=
  match w.getOpt (urljoin url "/feed/") with
  | some r => if r.status == 200 then searchFeedVersion r.body else none
  | none => none

/-- Method 3: `GET <base>/readme.html`, matched only on a 200 response. -/
def readmeHtmlVersion (w : World) (url : String) : Option String :=
  match w.getOpt (urljoin url "/readme.html") with
  | some r => if r.status == 200 then searchReadmeVersion r.body else none
  | none => none

/-- Method 4: majority vote over all `ver=` asset query strings. -/
def assetVersion (html : String) : Option String :=
  mostCommon1 (verMatches html)

/-- `_detect_wordpress_version` (lines 130-187): the four methods in order,
first match wins, each tagging its `detected_from` source. -/
def detectVersion (w : World) (url html : String) (soup : Soup) :
    Option WordPressVersion :=
  match metaGeneratorVersion soup with
  | some v => some { version := some v, detected_from := some "meta_generator" }
  | none =>
    match feedVersion w url with
    | some v => some { version := some v, detected_from := some "rss_feed" }
    | none =>
      match readmeHtmlVersion w url with
      | some v => some { version := some v, detected_from := some "readme_html" }
      | none =>
        match assetVersion html with
        | some v => some { version := some v, detected_from := some "asset_version" }
        | none => none

/-- The `fetch_style` closure of `_detect_theme`: version and author from the
first 2000 characters of `style.css`, `(None, None)` on any failure. -/
def styleProbe (w : World) (url slug : String) : Option String × Option String :=
  match w.getOpt (urljoin url ("/wp-content/themes/" ++ slug ++ "/style.css")) with
  | some r =>
    if r.status == 200 then
      let content := pyTake 2000 r.body
      (searchStyleVersion content, styleAuthor content)
    else (none, none)
  | none => (none, none)

/-- The `fetch_screenshot` closure: the screenshot URL on a 200 HEAD. -/
def screenshotProbe (w : World) (url slug : String) : Option String :=
  let screenshotUrl := urljoin url ("/wp-content/themes/" ++ slug ++ "/screenshot.png")
  match w.head screenshotUrl with
  | some s => if s == 200 then some screenshotUrl else none
  | none => none

/-- `_detect_theme` (lines 189-254): majority vote over
`/wp-content/themes/<slug>/` occurrences; display name = slug with `-`
mapped to spaces, title-cased; screenshot/style probes best-effort.  The
`if version_val:` / `if screenshot_result:` truthiness guards are vacuous
(both candidates are nonempty strings by construction) and are kept by the
probe functions returning `none` for every non-match. -/
def detectTheme (w : World) (url html : String) : Option ThemeInfo :=
  match mostCommon1 (themeMatches html) with
  | none => none
  | some slug =>
    let sv := styleProbe w url slug
    some
      { name := some (pyTitle (replaceChar '-' ' ' slug))
        slug := some slug
        version := sv.1
        author := sv.2
        template_url := some (urljoin url ("/wp-content/themes/" ++ slug ++ "/"))
        screenshot_url := screenshotProbe w url slug }

/-! #### `_detect_plugins` (lines 256-448) -/

/-- The well-known fingerprint table of method 6 (source order). -/
def pluginIndicators : List (String × String) :=
  [("yoast", "wordpress-seo"),
   ("woocommerce", "woocommerce"),
   ("elementor", "elementor"),
   ("wpforms", "wpforms"),
   ("wp-rocket", "wp-rocket"),
   ("jetpack", "jetpack"),
   ("akismet", "akismet"),
   ("wordfence", "wordfence"),
   ("contact-form-7", "contact-form-7"),
   ("wp-super-cache", "wp-super-cache"),
   ("all-in-one-seo", "all-in-one-seo-pack"),
   ("rankmath", "seo-by-rank-math"),
   ("wp-optimize", "wp-optimize"),
   ("smush", "wp-smushit"),
   ("updraft", "updraftplus")]

/-- The speculative guess list of method 9 (deep scan only). -/
def commonPlugins : List String :=
  ["wordpress-seo", "akismet", "jetpack", "contact-form-7",
   "woocommerce", "elementor", "wpforms-lite", "wordfence",
   "wp-super-cache", "classic-editor", "duplicate-post",
   "google-analytics-for-wordpress", "all-in-one-seo-pack",
   "wp-mail-smtp", "updraftplus", "wp-optimize", "smush",
   "really-simple-ssl", "redirection", "wpforms", "sucuri-scanner"]

def pluginDirUrl (url slug : String) : String :=
  urljoin url ("/wp-content/plugins/" ++ slug ++ "/")

/-- `HEAD <base>/wp-content/plugins/<slug>/` counting 200 and 403 as
"exists"; any other status or a raised request is "unconfirmed". -/
def headVerifies (w : World) (url slug : String) : Bool :=
  match w.head (pluginDirUrl url slug) with
  | some s => s == 200 || s == 403
  | none => false

/-- Method 4's candidate extraction from one string node: lowercase, gate on
the `plugin`/`wp-` substrings, then the comment regex. -/
def commentSlug (c : String) : Option String :=
  let t := pyLower c
  if pyContains t "plugin" || pyContains t "wp-" then commentRegexSlug t
  else none

/-- All candidate slugs produced by method 4's comment walk, in order
(before the length / already-detected / deep-scan gates). -/
def commentCandidatesRaw (soup : Soup) : List String :=
  (soup.textNodes.filter (fun s => pyContains s "<!--")).filterMap commentSlug

/-- `detected_slugs` after methods 1-3 (raw-HTML regex, link hrefs, script
srcs), as an insertion-ordered duplicate-free list. -/
def detectedAfter3 (html : String) (soup : Soup) : List String :=
  let s1 := addNewAll [] ((pluginPathMatches html).filter (fun s => s != ""))
  let s2 := addNewAll s1 (soup.links.filterMap (fun t => pluginDirSlug (t.getD "href" "")))
  addNewAll s2 (soup.scriptsSrc.filterMap (fun t => pluginDirSlug (t.getD "src" "")))

/-- Method 6's additions: indicators found in the lowercased HTML. -/
def indicatorSlugs (html : String) : List String :=
  pluginIndicators.filterMap (fun p =>
    if pyContains (pyLower html) p.1 then some p.2 else none)

/-- Method 8's additions: the indicator table cross-referenced against each
generator meta tag's lowercased content (the outer `'plugin' in content or
any(...)` gate is kept as in the source). -/
def generatorIndicatorSlugs (soup : Soup) : List String :=
  (soup.metas.filter (fun t => t.getD "name" "" == "generator")).flatMap
    (fun t =>
      let content := pyLower (t.getD "content" "")
      if pyContains content "plugin" ||
          pluginIndicators.any (fun p => pyContains content p.1) then
        pluginIndicators.filterMap (fun p =>
          if pyContains content p.1 then some p.2 else none)
      else [])

/-- The full `detected_slugs` set of `_detect_plugins` in method order:
1-3, comment verification (deep scan), meta tags, the indicator table,
inline scripts, generator tags, then the common-plugin probes (deep scan). -/
def detectedSlugs (w : World) (url html : String) (soup : Soup) (deep : Bool) :
    List String :=
  let a3 := detectedAfter3 html soup
  let toVerify :=
    if deep then
      (commentCandidatesRaw soup).filter (fun p => 3 < p.length && p ∉ a3)
    else []
  let a4 := addNewAll a3
    (toVerify.filterMap (fun s => if headVerifies w url s then some s else none))
  let a5 := addNewAll a4 (soup.metas.filterMap
    (fun t => pluginDirSlug (t.getD "content" "" ++ t.getD "name" "")))
  let a6 := addNewAll a5 (indicatorSlugs html)
  let a7 := addNewAll a6 (soup.inlineScripts.filterMap
    (fun txt => if txt != "" then inlinePluginSlug txt else none))
  let a8 := addNewAll a7 (generatorIndicatorSlugs soup)
  if deep then
    addNewAll a8 ((commonPlugins.filter (fun p => p ∉ a8)).filterMap
      (fun s => if headVerifies w url s then some s else none))
  else a8

/-- A character of the `[a-z0-9\-_]` class (with `re.IGNORECASE`, hence any
ASCII letter). -/
def isSlugChar (c : Char) : Bool :=
  c.isAlpha || c.isDigit || c == '-' || c == '_'

/-- `re.match(r'^[a-z0-9\-_]+$', s, re.IGNORECASE)`: the whole string is a
nonempty run of slug characters — or all of it but a single trailing
newline, which `$` (without `re.MULTILINE`) also accepts. -/
def slugPatternOk (s : String) : Bool :=
  (!s.data.isEmpty && s.data.all isSlugChar) ||
  (match s.data.getLast? with
   | some '\n' => !s.data.dropLast.isEmpty && s.data.dropLast.all isSlugChar
   | _ => false)

/-- The `valid_slugs` comprehension guard:
`s and len(s) >= 2 and re.match(...)`. -/
def validSlug (s : String) : Bool :=
  s != "" && 2 ≤ s.length && slugPatternOk s

/-- The valid detected slugs (the comprehension at lines 402-405; the source
iterates a Python set, so only the underlying slug set is specified — this
embedding fixes insertion order). -/
def detectPluginSlugs (w : World) (url html : String) (soup : Soup)
    (deep : Bool) : List String :=
  (detectedSlugs w url html soup deep).filter validSlug

/-- Does the readme body look like an HTML error page served with a 200?
`content.strip().lower().startswith(('<!doctype', '<html'))`. -/
def looksLikeHtml (content : String) : Bool :=
  listStarts "<!doctype".data (pyLower (pyStrip content)).data ||
  listStarts "<html".data (pyLower (pyStrip content)).data

/-- The `PluginInfo` constructed at the top of `fetch_plugin_info`: display
name from the slug (`-`/`_` to spaces, title-cased), version and description
initially unset. -/
def basePluginInfo (slug : String) : PluginInfo :=
  { name := some (pyTitle (replaceChar '_' ' ' (replaceChar '-' ' ' slug)))
    version := none
    description := none }

/-- `fetch_plugin_info` (lines 407-443): the display name is always set from
the slug; version and description come from the first 3000 characters of
`readme.txt` only on a 200 non-HTML response; every failure path returns the
bare entry. -/
def fetchPluginInfo (w : World) (url slug : String) : Option PluginInfo :=
  match w.getOpt (urljoin url ("/wp-content/plugins/" ++ slug ++ "/readme.txt")) with
  | none => some (basePluginInfo slug)
  | some r =>
    if r.status == 200 then
      let content := pyTake 3000 r.body
      if looksLikeHtml content then some (basePluginInfo slug)
      else some { basePluginInfo slug with
        version := stableTagVersion content
        description := extractDescription content }
    else some (basePluginInfo slug)

/-- `_detect_plugins`: one `PluginInfo` per valid slug; the final
`if p is not None` filter mirrors the source (its `fetch_plugin_info` in
fact returns an entry on every path). -/
def detectPlugins (w : World) (url html : String) (soup : Soup) (deep : Bool) :
    List PluginInfo :=
  ((detectPluginSlugs w url html soup deep).map
    (fun s => fetchPluginInfo w url s)).filterMap id

/-- `_extract_metadata` (lines 450-479). -/
def extractMetadata (soup : Soup) : SiteMetadata :=
  { title := soup.titleText.map pyStrip
    description := (soup.findMetaNamed "description").map
      (fun t => pyStrip (t.getD "content" ""))
    language := soup.htmlTag.bind (fun t => t.getOpt "lang")
    charset := (soup.metas.find? (fun t => t.hasAttr "charset")).map
      (fun t => t.getD "charset" "")
    generator := (soup.findMetaNamed "generator").map
      (fun t => pyStrip (t.getD "content" "")) }

/-! ### `analyze` and the route -/

/-- The exception kinds the route layer distinguishes (`except` clauses of
`analyze_wordpress_site`, in their dispatch order). -/
inductive PyExc where
  /-- `httpx.HTTPStatusError` (carrying the response status). -/
  | httpStatusError (code : Nat)
  /-- `httpx.RequestError` (carrying its rendering). -/
  | requestError (msg : String)
  /-- `asyncio.TimeoutError`. -/
  | timeoutError
  /-- a plain `Exception(msg)`. -/
  | exception (msg : String)
deriving DecidableEq, Repr

/-- `str(e)` — the rendering of the client exceptions is opaque library
text; only its embedding into the wrapping message matters here. -/
def strOfPyExc : PyExc → String
  | .httpStatusError c => "HTTP status error " ++ toString c
  | .requestError m => m
  | .timeoutError => ""
  | .exception m => m

def emptySiteInfo (url : String) : WordPressSiteInfo :=
  { url := url
    is_wordpress := false
    wordpress_version := none
    theme := none
    plugins := []
    metadata := none }

/-- `WordPressAnalyzer.analyze` (lines 41-89): normalize the URL, fetch the
homepage (the one fatal call — `raise_for_status` turns any non-2xx into an
exception), classify, then populate the detector fields.  The trailing
`except Exception as e: raise Exception(f"Failed to analyze site: {str(e)}")`
wraps every escaping exception into a plain `Exception`. -/
def analyze (w : World) (url : String) (deep : Bool) :
    Except PyExc WordPressSiteInfo :=
  let nurl := normalizeUrl url
  match w.get nurl with
  | .error msg =>
    .error (.exception ("Failed to analyze site: " ++ strOfPyExc (.requestError msg)))
  | .ok r =>
    if is2xx r.status then
      let html := r.body
      let soup := w.soup
      if isWordpressCheck w nurl html soup then
        .ok
          { url := nurl
            is_wordpress := true
            wordpress_version := detectVersion w nurl html soup
            theme := detectTheme w nurl html
            plugins := detectPlugins w nurl html soup deep
            metadata := some (extractMetadata soup) }
      else .ok (emptySiteInfo nurl)
    else
      .error (.exception
        ("Failed to analyze site: " ++ strOfPyExc (.httpStatusError r.status)))

/-! ### The HTTP route (`routes/wordpress.py`) -/

/-- What the route hands back: the HTTP status of the response (plain dict
returns are 200; the timeout branch builds a 504 `JSONResponse`) and the
JSON payload fields. -/
structure RouteResponse where
  status : Nat
  success : Bool
  summary : String
deriving DecidableEq, Repr

/-- How the wrapped analysis run ends, as observed by the route's `await
asyncio.wait_for(...)`: either the scan-level timeout fired
(`asyncio.TimeoutError`) or the analysis finished with a result or a raised
exception. -/
inductive RouteEvent where
  | timeoutFired
  | finished (r : Except PyExc WordPressSiteInfo)

/-- Python truthiness of an optional string field (`None` and `''` falsy). -/
def pyTruthy : Option String → Bool
  | none => false
  | some s => s != ""

/-- `f"{x}"` for an optional field: `None` renders as the string "None". -/
def pyStrOpt : Option String → String
  | none => "None"
  | some s => s

/-- The theme line of the summary (lines 65-71). -/
def themeSummaryLine (t : ThemeInfo) : String :=
  let base := "Theme: " ++ pyStrOpt t.name
  let base := match t.version with
    | some v => if v != "" then base ++ " (v" ++ v ++ ")" else base
    | none => base
  match t.author with
  | some a => if a != "" then base ++ " by " ++ a else base
  | none => base

/-- One plugin line of the summary (lines 76-86). -/
def pluginSummaryLine (p : PluginInfo) : String :=
  let base := "  - " ++ pyStrOpt p.name
  let base := match p.version with
    | some v => if v != "" then base ++ " (v" ++ v ++ ")" else base
    | none => base
  match p.description with
  | some d =>
    if d != "" then
      let d := pyStrip (replaceChar '\n' ' ' d)
      base ++ ": " ++ (if 100 < d.length then pyTake 100 d ++ "..." else d)
    else base
  | none => base

/-- The summary assembly for a successful WordPress result (lines 58-95). -/
def buildSummary (s : WordPressSiteInfo) : String :=
  let parts : List String := []
  let parts := match s.wordpress_version with
    | some v => parts ++ ["WordPress Version: " ++ pyStrOpt v.version]
    | none => parts
  let parts := match s.theme with
    | some t => parts ++ [themeSummaryLine t]
    | none => parts
  let parts :=
    if !s.plugins.isEmpty then
      parts ++ ["\nActive Plugins (" ++ toString s.plugins.length ++ "):"] ++
        s.plugins.map pluginSummaryLine
    else parts
  let parts := match s.metadata with
    | some m =>
      let parts := if pyTruthy m.title then
          parts ++ ["\nSite Title: " ++ pyStrOpt m.title] else parts
      if pyTruthy m.description then
        parts ++ ["Description: " ++ pyStrOpt m.description] else parts
    | none => parts
  String.intercalate "\n" parts

/-- `str(AttributeError)` for a missing pydantic model attribute. -/
def attrErrStr (name : String) : String :=
  "'Settings' object has no attribute '" ++ name ++ "'"

/-- `analyze_wordpress_site` (lines 16-127).  Inside the `try`, the URL is
normalized and then line 47 reads `settings.analysis_timeout` to arm
`asyncio.wait_for`; when `Settings` does not declare that field the access
raises `AttributeError`, which falls to the final `except Exception`
handler.  Otherwise the event of the wrapped run is dispatched through the
`except` chain: `asyncio.TimeoutError` to a 504 response, then
`httpx.HTTPStatusError`, `httpx.RequestError`, and the catch-all. -/
def analyzeRoute (ev : RouteEvent) (url : String) : RouteResponse :=
  let nurl := normalizeUrl url
  match settingsGetattr "analysis_timeout" with
  | none =>
    { status := 200, success := false,
      summary := "An error occurred during site analysis: " ++
        attrErrStr "analysis_timeout" }
  | some _ =>
    match ev with
    | .timeoutFired =>
      { status := 504, success := false,
        summary := "Analysis timed out. The site '" ++ nurl ++
          "' is taking too long to respond. Try again later." }
    | .finished (.error e) =>
      match e with
      | .timeoutError =>
        { status := 504, success := false,
          summary := "Analysis timed out. The site '" ++ nurl ++
            "' is taking too long to respond. Try again later." }
      | .httpStatusError c =>
        { status := 200, success := false,
          summary := "Failed to access the site. HTTP error: " ++ toString c }
      | .requestError m =>
        { status := 200, success := false,
          summary := "Failed to connect to the site: " ++ m }
      | .exception m =>
        { status := 200, success := false,
          summary := "An error occurred during site analysis: " ++ m }
    | .finished (.ok s) =>
      if !s.is_wordpress then
        { status := 200, success := false,
          summary := "The site '" ++ nurl ++ "' is not a WordPress site." }
      else
        { status := 200, success := true, summary := buildSummary s }

/-! ### Lemmas about the insertion-ordered slug set -/

theorem addNewAll_nil (acc : List String) : addNewAll acc [] = acc := rfl

theorem addNewAll_cons (acc : List String) (x : String) (xs : List String) :
    addNewAll acc (x :: xs) =
      addNewAll (if x ∈ acc then acc else acc ++ [x]) xs := rfl

theorem mem_addNewAll (s : String) (xs : List String) :
    ∀ acc, s ∈ addNewAll acc xs ↔ s ∈ acc ∨ s ∈ xs := by
  induction xs with
  | nil => intro acc; simp [addNewAll]
  | cons x xs ih =>
    intro acc
    rw [addNewAll_cons, ih]
    by_cases hx : x ∈ acc
    · simp only [if_pos hx, List.mem_cons]
      constructor
      · rintro (h | h)
        · exact Or.inl h
        · exact Or.inr (Or.inr h)
      · rintro (h | rfl | h)
        · exact Or.inl h
        · exact Or.inl hx
        · exact Or.inr h
    · simp only [if_neg hx, List.mem_append, List.mem_singleton, List.mem_cons]
      tauto

theorem nodup_addNewAll (xs : List String) :
    ∀ acc, acc.Nodup → (addNewAll acc xs).Nodup := by
  induction xs with
  | nil => intro acc h; exact h
  | cons x xs ih =>
    intro acc h
    rw [addNewAll_cons]
    by_cases hx : x ∈ acc
    · rw [if_pos hx]; exact ih acc h
    · rw [if_neg hx]
      refine ih _ ?_
      simp [List.nodup_append, h, hx]

theorem dedupFirst_nodup (l : List String) : (dedupFirst l).Nodup :=
  nodup_addNewAll l [] List.nodup_nil

theorem mem_dedupFirst (s : String) (l : List String) :
    s ∈ dedupFirst l ↔ s ∈ l := by
  unfold dedupFirst
  rw [mem_addNewAll]
  simp

/-! ### The `most_common(1)` argmax specification -/

theorem mostCommonGo_spec (full : List String) (xs : List String) :
    ∀ b : String, ∃ m pre post,
      mostCommonGo full (some b) xs = some m ∧
      b :: xs = pre ++ m :: post ∧
      (∀ y ∈ pre, full.count y < full.count m) ∧
      (∀ y ∈ post, full.count y ≤ full.count m) := by
  induction xs with
  | nil =>
    intro b
    exact ⟨b, [], [], rfl, rfl, by simp, by simp⟩
  | cons x xs ih =>
    intro b
    by_cases h : full.count b < full.count x
    · obtain ⟨m, pre, post, hgo, hsplit, hpre, hpost⟩ := ih x
      have hxle : full.count x ≤ full.count m := by
        cases pre with
        | nil =>
          have : x = m := by simpa using congrArg (fun l => l.head?) hsplit
          exact this ▸ le_refl _
        | cons p ps =>
          have hx : x = p := by simpa using congrArg (fun l => l.head?) hsplit
          exact le_of_lt (hx ▸ hpre p (by simp))
      refine ⟨m, b :: pre, post, ?_, ?_, ?_, hpost⟩
      · simpa [mostCommonGo, if_pos h] using hgo
      · simpa using congrArg (fun l => b :: l) hsplit
      · intro y hy
        rcases List.mem_cons.mp hy with rfl | hy
        · exact lt_of_lt_of_le h hxle
        · exact hpre y hy
    · obtain ⟨m, pre, post, hgo, hsplit, hpre, hpost⟩ := ih b
      have hgo' : mostCommonGo full (some b) (x :: xs) = some m := by
        simpa [mostCommonGo, if_neg h] using hgo
      cases pre with
      | nil =>
        have hm : b = m ∧ xs = post := by
          constructor
          · simpa using congrArg (fun l => l.head?) hsplit
          · simpa using congrArg (fun l => l.tail) hsplit
        refine ⟨m, [], x :: xs, hgo', by simp [hm.1], by simp, ?_⟩
        intro y hy
        rcases List.mem_cons.mp hy with rfl | hy
        · exact hm.1 ▸ le_of_not_lt h
        · exact hpost y (hm.2 ▸ hy)
      | cons p ps =>
        have hb : b = p := by simpa using congrArg (fun l => l.head?) hsplit
        have hxs : xs = ps ++ m :: post := by
          simpa using congrArg (fun l => l.tail) hsplit
        have hbm : full.count b < full.count m := hb ▸ hpre p (by simp)
        refine ⟨m, b :: x :: ps, post, hgo', by simp [hxs], ?_, hpost⟩
        intro y hy
        rcases List.mem_cons.mp hy with rfl | hy
        · exact hbm
        · rcases List.mem_cons.mp hy with rfl | hy
          · exact lt_of_le_of_lt (le_of_not_lt h) hbm
          · exact hpre y (hb ▸ List.mem_cons_of_mem p hy)

theorem mostCommon1_none (l : List String) (h : l = []) : mostCommon1 l = none := by
  subst h; rfl

/-- The winning key of `Counter(l).most_common(1)` occurs in `l`, every key
occurring strictly earlier (first-occurrence order) has a strictly smaller
count, and no key at all has a larger count. -/
theorem mostCommon1_spec (l : List String) (m : String)
    (h : mostCommon1 l = some m) :
    m ∈ l ∧ ∃ pre post,
      dedupFirst l = pre ++ m :: post ∧
      (∀ y ∈ pre, l.count y < l.count m) ∧
      (∀ y ∈ post, l.count y ≤ l.count m) := by
  unfold mostCommon1 at h
  cases hd : dedupFirst l with
  | nil => rw [hd] at h; exact absurd h (by simp [mostCommonGo])
  | cons d ds =>
    rw [hd] at h
    obtain ⟨m', pre, post, hgo, hsplit, hpre, hpost⟩ := mostCommonGo_spec l ds d
    have hm : m' = m := by
      have h2 : mostCommonGo l (some d) ds = some m := h
      rw [hgo] at h2; exact Option.some.inj h2
    have hmem : m' ∈ l := by
      rw [← mem_dedupFirst, hd, hsplit]
      simp
    rw [← hm]
    exact ⟨hmem, pre, post, hsplit, hpre, hpost⟩

/-! ### Membership structure of the detected plugin slug set -/

theorem mem_verifyFilter (w : World) (url : String) (xs : List String)
    (s : String) :
    s ∈ xs.filterMap (fun t => if headVerifies w url t then some t else none) ↔
      s ∈ xs ∧ headVerifies w url s = true := by
  simp only [List.mem_filterMap]
  constructor
  · rintro ⟨a, ha, hif⟩
    by_cases h : headVerifies w url a
    · rw [if_pos h] at hif
      obtain rfl := Option.some.inj hif
      exact ⟨ha, h⟩
    · rw [if_neg h] at hif; cases hif
  · rintro ⟨ha, h⟩
    exact ⟨s, ha, by rw [if_pos h]⟩

/-- With `deep_scan=False` the comment-verification and common-plugin stages
contribute nothing, and in particular no network probe is consulted: the
detected slug set is the same in every world. -/
theorem detectedSlugs_shallow_pure (w w' : World) (url html : String)
    (soup : Soup) :
    detectedSlugs w url html soup false = detectedSlugs w' url html soup false := rfl

/-- Membership in the deep-scan slug set: the cheap methods, plus exactly
those weak candidates (comment slugs longer than 3 chars, and the curated
guess list) whose directory HEAD probe returned 200 or 403. -/
theorem mem_detectedSlugs_deep (w : World) (url html : String) (soup : Soup)
    (s : String) :
    s ∈ detectedSlugs w url html soup true ↔
      s ∈ detectedSlugs w url html soup false ∨
      (s ∈ commentCandidatesRaw soup ∧ 3 < s.length ∧
        headVerifies w url s = true) ∨
      (s ∈ commonPlugins ∧ headVerifies w url s = true) := by
  simp only [detectedSlugs, eq_self_iff_true, Bool.false_eq_true, if_true,
    if_false, ite_true, ite_false, mem_addNewAll, mem_verifyFilter,
    List.mem_filter, List.filterMap_nil, List.mem_nil_iff, Bool.and_eq_true,
    decide_eq_true_eq, Bool.not_eq_true', Bool.not_eq_true]
  tauto

/-! ### Concrete scan scenarios used as witnesses -/

def emptySoup : Soup :=
  { metas := [], links := [], scriptsSrc := [], inlineScripts := [],
    textNodes := [], titleText := none, htmlTag := none }

/-- A world whose homepage GET answers with the given response and in which
every other probe fails (connection errors everywhere). -/
def probelessWorld (homeStatus : Nat) (homeBody : String) (soup : Soup) : World :=
  { get := fun u =>
      if u == "https://example.com" then .ok { status := homeStatus, body := homeBody }
      else .error "connection refused"
    head := fun _ => none
    jsonHasWpKeys := fun _ => none
    soup := soup }

/-- A non-WordPress homepage: 200 response, no WordPress signal anywhere. -/
def wPlain : World := probelessWorld 200 "<p>hi</p>" emptySoup

/-- A homepage answering HTTP 500. -/
def wServerError : World := probelessWorld 500 "oops" emptySoup

def soupGen642 : Soup :=
  { emptySoup with
    metas := [{ attrs := [("name", "generator"), ("content", "WordPress 6.4.2")] }] }

/-- A WordPress homepage whose generator meta says 6.4.2 while the asset
query strings vote for 1.1. -/
def wGen642 : World :=
  probelessWorld 200 "<link href=x?ver=1.1> <script src=y?ver=1.1>" soupGen642

def htmlThemes : String :=
  String.intercalate ""
    ["<link href=/wp-content/themes/foo/a.css>",
     "<script src=/wp-content/themes/bar/b.js>",
     "<img src=/wp-content/themes/bar/i.png>",
     "<link href=/wp-content/themes/bar/c.css>"]

/-! ### Claims -/

/-- C2: for every input whose signals classify it as non-WordPress, `analyze`
returns a successful `SiteInfo` with `is_wordpress=false` and with
`wordpress_version`, `theme` and `metadata` unset and `plugins` empty. -/
theorem c2_non_wordpress_unset (w : World) (url : String) (deep : Bool)
    (r : Response)
    (hget : w.get (normalizeUrl url) = .ok r)
    (h2xx : is2xx r.status = true)
    (hwp : isWordpressCheck w (normalizeUrl url) r.body w.soup = false) :
    analyze w url deep = .ok
      { url := normalizeUrl url, is_wordpress := false,
        wordpress_version := none, theme := none, plugins := [],
        metadata := none } := by
  simp [analyze, hget, h2xx, hwp, emptySiteInfo]

theorem c2_witness :
    analyze wPlain "https://example.com" false = .ok
      { url := "https://example.com", is_wordpress := false,
        wordpress_version := none, theme := none, plugins := [],
        metadata := none } :=
  c2_non_wordpress_unset wPlain "https://example.com" false
    { status := 200, body := "<p>hi</p>" } (by rfl) (by rfl) (by rfl)

/-- C3: the four version-detection methods are tried strictly in order —
generator meta tag, feed, readme.html, `ver=` majority — the first match
wins with its `detected_from` tag, and a meta-tag match in particular wins
over any `ver=` occurrences in the homepage HTML (the html argument is
unconstrained in the first clause). -/
theorem c3_version_method_order (w : World) (url html : String) (soup : Soup) :
    (∀ v, metaGeneratorVersion soup = some v →
      detectVersion w url html soup =
        some { version := some v, detected_from := some "meta_generator" }) ∧
    (∀ v, metaGeneratorVersion soup = none → feedVersion w url = some v →
      detectVersion w url html soup =
        some { version := some v, detected_from := some "rss_feed" }) ∧
    (∀ v, metaGeneratorVersion soup = none → feedVersion w url = none →
      readmeHtmlVersion w url = some v →
      detectVersion w url html soup =
        some { version := some v, detected_from := some "readme_html" }) ∧
    (∀ v, metaGeneratorVersion soup = none → feedVersion w url = none →
      readmeHtmlVersion w url = none → assetVersion html = some v →
      detectVersion w url html soup =
        some { version := some v, detected_from := some "asset_version" }) ∧
    (metaGeneratorVersion soup = none → feedVersion w url = none →
      readmeHtmlVersion w url = none → assetVersion html = none →
      detectVersion w url html soup = none) := by
  refine ⟨?_, ?_, ?_, ?_, ?_⟩
  · intro v h1; simp [detectVersion, h1]
  · intro v h1 h2; simp [detectVersion, h1, h2]
  · intro v h1 h2 h3; simp [detectVersion, h1, h2, h3]
  · intro v h1 h2 h3 h4; simp [detectVersion, h1, h2, h3, h4]
  · intro h1 h2 h3 h4; simp [detectVersion, h1, h2, h3, h4]

theorem c3_witness :
    metaGeneratorVersion soupGen642 = some "6.4.2" ∧
    verMatches "<link href=x?ver=1.1> <script src=y?ver=1.1>" = ["1.1", "1.1"] ∧
    detectVersion wGen642 "https://example.com"
        "<link href=x?ver=1.1> <script src=y?ver=1.1>" soupGen642 =
      some { version := some "6.4.2", detected_from := some "meta_generator" } :=
  ⟨by rfl, by rfl,
   (c3_version_method_order wGen642 "https://example.com"
      "<link href=x?ver=1.1> <script src=y?ver=1.1>" soupGen642).1 "6.4.2" (by rfl)⟩

theorem detectedAfter3_nodup (html : String) (soup : Soup) :
    (detectedAfter3 html soup).Nodup := by
  unfold detectedAfter3
  exact nodup_addNewAll _ _ (nodup_addNewAll _ _ (nodup_addNewAll _ _ List.nodup_nil))

theorem detectedSlugs_nodup (w : World) (url html : String) (soup : Soup)
    (deep : Bool) : (detectedSlugs w url html soup deep).Nodup := by
  have h3 := detectedAfter3_nodup html soup
  unfold detectedSlugs
  cases deep with
  | false =>
    simp only [Bool.false_eq_true, if_false, ite_false]
    exact nodup_addNewAll _ _ (nodup_addNewAll _ _ (nodup_addNewAll _ _
      (nodup_addNewAll _ _ (nodup_addNewAll _ _ h3))))
  | true =>
    simp only [eq_self_iff_true, if_true, ite_true]
    exact nodup_addNewAll _ _ (nodup_addNewAll _ _ (nodup_addNewAll _ _
      (nodup_addNewAll _ _ (nodup_addNewAll _ _ (nodup_addNewAll _ _ h3)))))

theorem fetchPluginInfo_isSome (w : World) (url slug : String) :
    (fetchPluginInfo w url slug).isSome := by
  unfold fetchPluginInfo
  cases w.getOpt (urljoin url ("/wp-content/plugins/" ++ slug ++ "/readme.txt")) with
  | none => rfl
  | some r =>
    by_cases h : (r.status == 200) = true
    · by_cases h2 : looksLikeHtml (pyTake 3000 r.body) = true
      · simp only [h, h2, if_true, ite_true]; rfl
      · simp only [h, h2, if_true, ite_true, if_false, ite_false,
          Bool.false_eq_true]
        rfl
    · simp only [h, if_false, ite_false]
      rfl

theorem length_filterMap_of_isSome {α β : Type} (f : α → Option β)
    (l : List α) (h : ∀ x ∈ l, (f x).isSome) :
    (l.filterMap f).length = l.length := by
  induction l with
  | nil => rfl
  | cons x xs ih =>
    rw [List.filterMap_cons]
    cases hfx : f x with
    | none =>
      have := h x (by simp)
      rw [hfx] at this
      cases this
    | some b =>
      simp only [List.length_cons]
      rw [ih (fun y hy => h y (by simp [hy]))]

theorem detectPlugins_eq_filterMap (w : World) (url html : String)
    (soup : Soup) (deep : Bool) :
    detectPlugins w url html soup deep =
      (detectPluginSlugs w url html soup deep).filterMap (fetchPluginInfo w url) := by
  unfold detectPlugins
  rw [List.filterMap_map]
  rfl

/-- C4: the theme detector reports the most frequently referenced
`/wp-content/themes/<slug>/` slug (ties to the first-encountered one, via
the `dedupFirst` first-occurrence order), display-names it by `-`→space and
title-casing, and reports nothing at all when there is no occurrence. -/
theorem c4_theme_majority (w : World) (url html : String) :
    (themeMatches html = [] → detectTheme w url html = none) ∧
    (∀ info, detectTheme w url html = some info →
      ∃ m pre post,
        info.slug = some m ∧
        info.name = some (pyTitle (replaceChar '-' ' ' m)) ∧
        m ∈ themeMatches html ∧
        dedupFirst (themeMatches html) = pre ++ m :: post ∧
        (∀ y ∈ pre, (themeMatches html).count y < (themeMatches html).count m) ∧
        (∀ y ∈ post, (themeMatches html).count y ≤ (themeMatches html).count m)) := by
  constructor
  · intro h
    unfold detectTheme
    rw [h]
    rfl
  · intro info h
    unfold detectTheme at h
    cases hmc : mostCommon1 (themeMatches html) with
    | none => rw [hmc] at h; cases h
    | some slug =>
      rw [hmc] at h
      obtain ⟨hmem, pre, post, hsplit, hpre, hpost⟩ := mostCommon1_spec _ _ hmc
      have h' :
          (some { name := some (pyTitle (replaceChar '-' ' ' slug)),
                  slug := some slug,
                  version := (styleProbe w url slug).1,
                  author := (styleProbe w url slug).2,
                  template_url :=
                    some (urljoin url ("/wp-content/themes/" ++ slug ++ "/")),
                  screenshot_url := screenshotProbe w url slug } :
            Option ThemeInfo) = some info := h
      obtain rfl := (Option.some.inj h').symm
      exact ⟨slug, pre, post, rfl, rfl, hmem, hsplit, hpre, hpost⟩

def barTheme : ThemeInfo :=
  { name := some "Bar", slug := some "bar", version := none, author := none,
    template_url := some "https://example.com/wp-content/themes/bar/",
    screenshot_url := none }

theorem c4_witness :
    detectTheme wPlain "https://example.com" htmlThemes = some barTheme ∧
    (∃ m pre post,
      barTheme.slug = some m ∧
      barTheme.name = some (pyTitle (replaceChar '-' ' ' m)) ∧
      m ∈ themeMatches htmlThemes ∧
      dedupFirst (themeMatches htmlThemes) = pre ++ m :: post ∧
      (∀ y ∈ pre, (themeMatches htmlThemes).count y < (themeMatches htmlThemes).count m) ∧
      (∀ y ∈ post, (themeMatches htmlThemes).count y ≤ (themeMatches htmlThemes).count m)) :=
  ⟨by rfl,
   (c4_theme_majority wPlain "https://example.com" htmlThemes).2 barTheme (by rfl)⟩

/-- C5: the detected valid slug list is duplicate-free, every element passed
the `^[a-z0-9\-_]+$` + length-≥-2 validation, and the returned plugin
entries are in one-to-one correspondence with those slugs (`fetch_plugin_info`
returns an entry on every path, so the final `is not None` filter drops
nothing). -/
theorem c5_plugin_slug_dedup (w : World) (url html : String) (soup : Soup)
    (deep : Bool) :
    (detectPluginSlugs w url html soup deep).Nodup ∧
    (∀ s ∈ detectPluginSlugs w url html soup deep,
      2 ≤ s.length ∧ slugPatternOk s = true) ∧
    detectPlugins w url html soup deep =
      (detectPluginSlugs w url html soup deep).filterMap (fetchPluginInfo w url) ∧
    (detectPlugins w url html soup deep).length =
      (detectPluginSlugs w url html soup deep).length := by
  refine ⟨?_, ?_, detectPlugins_eq_filterMap w url html soup deep, ?_⟩
  · exact (detectedSlugs_nodup w url html soup deep).filter _
  · intro s hs
    have hv := (List.mem_filter.mp hs).2
    unfold validSlug at hv
    simp only [Bool.and_eq_true, decide_eq_true_eq] at hv
    exact ⟨hv.1.2, hv.2⟩
  · rw [detectPlugins_eq_filterMap w url html soup deep]
    exact length_filterMap_of_isSome _ _ (fun s _ => fetchPluginInfo_isSome w url s)

def htmlAkismet : String := "<link href=/wp-content/plugins/akismet/a.css>"

theorem c5_witness :
    (detectPluginSlugs wPlain "https://example.com" htmlAkismet emptySoup false).Nodup ∧
    2 ≤ "akismet".length ∧ slugPatternOk "akismet" = true :=
  ⟨(c5_plugin_slug_dedup wPlain "https://example.com" htmlAkismet emptySoup false).1,
   (c5_plugin_slug_dedup wPlain "https://example.com" htmlAkismet emptySoup false).2.1
     "akismet" (by decide)⟩

/-- C6: with the target and every probe response fixed, every plugin slug
detected by the cheap scan (`deep_scan=false`) is also detected by the deep
scan — the deep-scan-only stages only ever add slugs. -/
theorem c6_deep_scan_monotone (w : World) (url html : String) (soup : Soup)
    (s : String) (h : s ∈ detectPluginSlugs w url html soup false) :
    s ∈ detectPluginSlugs w url html soup true := by
  unfold detectPluginSlugs at h ⊢
  rw [List.mem_filter] at h ⊢
  exact ⟨(mem_detectedSlugs_deep w url html soup s).mpr (Or.inl h.1), h.2⟩

theorem c6_witness :
    "akismet" ∈ detectPluginSlugs wPlain "https://example.com" htmlAkismet emptySoup false ∧
    "akismet" ∈ detectPluginSlugs wPlain "https://example.com" htmlAkismet emptySoup true :=
  ⟨by decide,
   c6_deep_scan_monotone wPlain "https://example.com" htmlAkismet emptySoup "akismet"
     (by decide)⟩

/-- C7: weak-signal candidates — comment-derived slugs and the curated guess
list — enter the detected set exactly when `HEAD <base>/wp-content/plugins/
<slug>/` answers 200 or 403 (`headVerifies`); any other status or a network
error drops them silently; and with `deep_scan=false` the comment candidates
are discarded outright: the detected set is identical in every world, so no
verification probe is even consulted. -/
theorem c7_weak_candidate_verification (w w' : World) (url html : String)
    (soup : Soup) :
    detectedSlugs w url html soup false = detectedSlugs w' url html soup false ∧
    (∀ s, s ∈ detectedSlugs w url html soup true ↔
      s ∈ detectedSlugs w url html soup false ∨
      (s ∈ commentCandidatesRaw soup ∧ 3 < s.length ∧
        headVerifies w url s = true) ∨
      (s ∈ commonPlugins ∧ headVerifies w url s = true)) :=
  ⟨detectedSlugs_shallow_pure w w' url html soup,
   fun s => mem_detectedSlugs_deep w url html soup s⟩

/-- C10: every returned plugin entry has its display name set from the slug
(`-`/`_` to spaces, title-cased), and a failing, non-200, or HTML-bodied
`readme.txt` fetch leaves exactly the version and description unset while
keeping the entry itself. -/
theorem c10_plugin_entry_resilience (w : World) (url slug : String) :
    (∃ p, fetchPluginInfo w url slug = some p ∧
      p.name = some (pyTitle (replaceChar '_' ' ' (replaceChar '-' ' ' slug)))) ∧
    (w.getOpt (urljoin url ("/wp-content/plugins/" ++ slug ++ "/readme.txt")) = none →
      fetchPluginInfo w url slug = some (basePluginInfo slug)) ∧
    (∀ r,
      w.getOpt (urljoin url ("/wp-content/plugins/" ++ slug ++ "/readme.txt")) = some r →
      (r.status ≠ 200 ∨ looksLikeHtml (pyTake 3000 r.body) = true) →
      fetchPluginInfo w url slug = some (basePluginInfo slug)) := by
  refine ⟨?_, ?_, ?_⟩
  · unfold fetchPluginInfo
    cases w.getOpt (urljoin url ("/wp-content/plugins/" ++ slug ++ "/readme.txt")) with
    | none => exact ⟨basePluginInfo slug, rfl, rfl⟩
    | some r =>
      by_cases h : (r.status == 200) = true
      · by_cases h2 : looksLikeHtml (pyTake 3000 r.body) = true
        · simp only [h, h2, if_true, ite_true]
          exact ⟨basePluginInfo slug, rfl, rfl⟩
        · simp only [h, h2, if_true, ite_true, if_false, ite_false,
            Bool.false_eq_true]
          exact ⟨_, rfl, rfl⟩
      · simp only [h, if_false, ite_false]
        exact ⟨basePluginInfo slug, rfl, rfl⟩
  · intro hg
    unfold fetchPluginInfo
    rw [hg]
  · intro r hg hfail
    unfold fetchPluginInfo
    rw [hg]
    rcases hfail with h | h
    · have h' : (r.status == 200) = false := by
        simpa using h
      simp only [h', Bool.false_eq_true, if_false, ite_false]
    · by_cases hs : (r.status == 200) = true
      · simp only [hs, h, if_true, ite_true]
      · simp only [hs, if_false, ite_false, Bool.false_eq_true]

theorem c10_witness :
    fetchPluginInfo wPlain "https://example.com" "contact-form-7" =
      some { name := some "Contact Form 7", version := none, description := none } :=
  (c10_plugin_entry_resilience wPlain "https://example.com" "contact-form-7").2.1 (by rfl)

/-- C9: `Settings` (config.py) declares none of `request_timeout`,
`user_agent`, `analysis_timeout`; reading any of them raises
`AttributeError`, so constructing the analyzer's HTTP client fails on the
very first settings access. -/
theorem c9_settings_missing_fields :
    settingsGetattr "request_timeout" = none ∧
    settingsGetattr "user_agent" = none ∧
    settingsGetattr "analysis_timeout" = none ∧
    analyzerInit = .error "AttributeError: request_timeout" :=
  ⟨rfl, rfl, rfl, rfl⟩

/-- C8: whatever the wrapped analysis run does — including the scan-level
timeout firing — the route answers with the generic 200 failure produced by
the `AttributeError` on the missing `settings.analysis_timeout`; the 504
timeout response is unreachable. -/
theorem c8_timeout_response_unreachable (ev : RouteEvent) (url : String) :
    analyzeRoute ev url =
      { status := 200, success := false,
        summary := "An error occurred during site analysis: " ++
          attrErrStr "analysis_timeout" } := rfl

/-- C1: (a) whenever the homepage GET yields a 2xx response, `analyze`
succeeds — every follow-up probe failure is absorbed; (b) any failure of
`analyze` is a plain wrapped `Exception`, never a typed
`httpx.HTTPStatusError`/`httpx.RequestError` (so the route's dedicated
handlers for those can never fire); (c) concretely, a homepage answering
HTTP 500 makes `analyze` raise the generic wrapper. -/
theorem c1_failure_propagation :
    (∀ (w : World) (url : String) (deep : Bool) (r : Response),
      w.get (normalizeUrl url) = .ok r → is2xx r.status = true →
      ∃ s, analyze w url deep = .ok s) ∧
    (∀ (w : World) (url : String) (deep : Bool) (e : PyExc),
      analyze w url deep = .error e → ∃ msg, e = .exception msg) ∧
    analyze wServerError "https://example.com" false =
      .error (.exception ("Failed to analyze site: " ++
        strOfPyExc (.httpStatusError 500))) := by
  refine ⟨?_, ?_, by rfl⟩
  · intro w url deep r hget h2xx
    by_cases hwp : isWordpressCheck w (normalizeUrl url) r.body w.soup = true
    · refine ⟨WordPressSiteInfo.mk (normalizeUrl url) true
        (detectVersion w (normalizeUrl url) r.body w.soup)
        (detectTheme w (normalizeUrl url) r.body)
        (detectPlugins w (normalizeUrl url) r.body w.soup deep)
        (some (extractMetadata w.soup)), ?_⟩
      simp [analyze, hget, h2xx, hwp]
    · have hwp' : isWordpressCheck w (normalizeUrl url) r.body w.soup = false :=
        Bool.not_eq_true _ ▸ hwp
      refine ⟨emptySiteInfo (normalizeUrl url), ?_⟩
      simp [analyze, hget, h2xx, hwp']
  · intro w url deep e h
    cases hget : w.get (normalizeUrl url) with
    | error msg =>
      simp [analyze, hget] at h
      exact ⟨_, h.symm⟩
    | ok r =>
      by_cases h2 : is2xx r.status = true
      · by_cases hwp : isWordpressCheck w (normalizeUrl url) r.body w.soup = true
        · simp [analyze, hget, h2, hwp] at h
        · have hwp' : isWordpressCheck w (normalizeUrl url) r.body w.soup = false :=
            Bool.not_eq_true _ ▸ hwp
          simp [analyze, hget, h2, hwp'] at h
      · have h2' : is2xx r.status = false := Bool.not_eq_true _ ▸ h2
        simp [analyze, hget, h2'] at h
        exact ⟨_, h.symm⟩

theorem c1_witness :
    (∃ s, analyze wPlain "https://example.com" false = .ok s) ∧
    (∃ msg,
      (PyExc.exception ("Failed to analyze site: " ++
        strOfPyExc (.httpStatusError 500))) = .exception msg) :=
  ⟨c1_failure_propagation.1 wPlain "https://example.com" false
      { status := 200, body := "<p>hi</p>" } (by rfl) (by rfl),
   c1_failure_propagation.2.1 wServerError "https://example.com" false _ (by rfl)⟩

end WpAnalyzer
